import Mathlib

set_option maxRecDepth 40000

/-!
# Verification of the rule-based NL-to-SQL core (`llm_sql.py`, `app.py`)

Shallow embedding of the deterministic core of the ticket-analytics backend:
the keyword extractor, WHERE-condition builder, column-expression sanitizer,
SQL assembler and SQL explanation generator from `llm_sql.py`, plus the
SELECT-only guard of the `/nl-query` route in `app.py`.

Modelling conventions:
* Python strings are modelled as `List Char` (`Str`); `p in s` is infix
  containment, `s.strip()` removes ASCII whitespace from both ends,
  `s.lower()` / `s.upper()`-style case mapping is modelled for ASCII
  (`pyLowerChar`), which is exact on every input the fixed vocabulary and
  the ASCII regexes of the source can produce.
* `re.findall(r"[a-zA-Z]{3,}", q)` returns the maximal runs of ASCII
  letters of length ≥ 3, in order (`letterRuns` filtered by length).
* `list(set(words))` has an unspecified (hash-dependent) order in Python;
  it is modelled as order-preserving deduplication keeping the first
  occurrence (`pySetList`).  Results that depend on the order of that list
  are stated for this deterministic model.
* The FLAN-T5 suggester is an external black box: `generate_sql_from_question`
  takes its decoded output text as an explicit argument `suggester_output`
  and feeds it to the sanitizer exactly as the source does.
-/

/-- Python strings, modelled as lists of characters. -/
abbrev Str := List Char

/-- Coerce a Lean string literal to the `Str` model. -/
def str (s : String) : Str := s.data

/-- Python `pat in hay` substring test. -/
def inStr (pat hay : Str) : Bool := decide (pat <:+: hay)

/-- Python ASCII whitespace (the characters `str.strip()` removes,
restricted to ASCII as everywhere in this model). -/
def isSpace (c : Char) : Bool :=
  c.toNat == 32 || c.toNat == 9 || c.toNat == 10 || c.toNat == 13 ||
  c.toNat == 11 || c.toNat == 12

/-- ASCII lower-casing of one character (Python `str.lower()` on ASCII). -/
def pyLowerChar (c : Char) : Char :=
  if h : 65 ≤ c.toNat ∧ c.toNat ≤ 90 then
    Char.ofNatAux (c.toNat + 32) (Or.inl (by omega))
  else c

/-- ASCII upper-casing of one character (used by Python `str.capitalize()`). -/
def pyUpperChar (c : Char) : Char :=
  if h : 97 ≤ c.toNat ∧ c.toNat ≤ 122 then
    Char.ofNatAux (c.toNat - 32) (Or.inl (by omega))
  else c

/-- Python `s.lower()`. -/
def lowerL (s : Str) : Str := s.map pyLowerChar

/-- Python `s.strip()`: drop whitespace from both ends. -/
def stripL (s : Str) : Str :=
  ((s.dropWhile isSpace).reverse.dropWhile isSpace).reverse

/-- Python `s.split(sep)` for a one-character separator. -/
def splitOnChar (sep : Char) : Str → List Str
  | [] => [[]]
  | c :: rest =>
    if c == sep then [] :: splitOnChar sep rest
    else
      match splitOnChar sep rest with
      | [] => [[c]]
      | p :: ps => (c :: p) :: ps

/-- Python `sep.join(parts)`. -/
def joinWith (sep : Str) : List Str → Str
  | [] => []
  | [s] => s
  | s :: t :: rest => s ++ sep ++ joinWith sep (t :: rest)

/-- Python `str.capitalize()`: first character upper-cased, the rest
lower-cased. -/
def pyCapitalize : Str → Str
  | [] => []
  | c :: rest => pyUpperChar c :: rest.map pyLowerChar

/-- Order-preserving model of Python `list(set(xs))` (keeps the first
occurrence of each element; Python's real iteration order is
hash-dependent and unspecified). -/
def pySetList : List Str → List Str
  | [] => []
  | w :: rest => w :: (pySetList rest).filter (fun v => !(v == w))

/-- ASCII letter (the character class `[a-zA-Z]`). -/
def isAsciiLetter (c : Char) : Bool :=
  (65 ≤ c.toNat && c.toNat ≤ 90) || (97 ≤ c.toNat && c.toNat ≤ 122)

/-- The character class `[a-zA-Z0-9_() ]` of the sanitizer's regex. -/
def isAllowedChar (c : Char) : Bool :=
  isAsciiLetter c || (48 ≤ c.toNat && c.toNat ≤ 57) ||
  c == '_' || c == '(' || c == ')' || c == ' '

/-- Helper for `letterRuns`: `cur` is the current (reversed) run of letters. -/
def letterRunsAux (cur : Str) : Str → List Str
  | [] => if cur.isEmpty then [] else [cur.reverse]
  | c :: rest =>
    if isAsciiLetter c then letterRunsAux (c :: cur) rest
    else if cur.isEmpty then letterRunsAux [] rest
    else cur.reverse :: letterRunsAux [] rest

/-- The maximal runs of ASCII letters of a string, in order.
`re.findall(r"[a-zA-Z]{3,}", q)` is exactly those runs of length ≥ 3. -/
def letterRuns (s : Str) : List Str := letterRunsAux [] s

/-- The stop-word set of `_extract_text_keywords` in `llm_sql.py`. -/
def stop_words : List Str :=
  [str "show", str "me", str "all", str "the", str "tickets", str "ticket",
   str "with", str "that", str "are", str "is", str "of", str "for", str "in",
   str "high", str "medium", str "low",
   str "priority", str "status", str "open", str "closed",
   str "technical", str "billing", str "general",
   str "today", str "yesterday", str "week", str "month", str "this", str "last"]

/-- Model of `_extract_text_keywords` from `llm_sql.py`: lower-cased letter runs of
length ≥ 3 that are not stop words, deduplicated (`list(set(words))`,
see the ordering convention in the header). -/
def _extract_text_keywords (question : Str) : List Str :=
  let words :=
    (((letterRuns question).filter (fun w => 3 ≤ w.length)).map
        (fun w => w.map pyLowerChar)).filter
      (fun w => !(stop_words.contains w))
  pySetList words

/-- Priority block of `_build_conditions_from_question` (if/elif chain on
the lower-cased question). -/
def priority_conditions (q : Str) : List Str :=
  if inStr (str "high") q then [str "priority = 'High'"]
  else if inStr (str "medium") q then [str "priority = 'Medium'"]
  else if inStr (str "low") q then [str "priority = 'Low'"]
  else []

/-- Category block of `_build_conditions_from_question` (three independent
`if`s, appended in source order). -/
def category_conditions (q : Str) : List Str :=
  (if inStr (str "technical") q || inStr (str "tech") q then
    [str "category = 'Technical'"] else []) ++
  (if inStr (str "billing") q || inStr (str "payment") q || inStr (str "refund") q then
    [str "category = 'Billing'"] else []) ++
  (if inStr (str "general") q || inStr (str "account") q || inStr (str "profile") q then
    [str "category = 'General'"] else [])

/-- Status block of `_build_conditions_from_question` (two independent `if`s). -/
def status_conditions (q : Str) : List Str :=
  (if inStr (str "open") q then [str "status = 'Open'"] else []) ++
  (if inStr (str "closed") q || inStr (str "resolved") q then
    [str "status = 'Closed'"] else [])

/-- Date block of `_build_conditions_from_question` (if/elif chain). -/
def date_conditions (q : Str) : List Str :=
  if inStr (str "today") q then [str "DATE(created_at) = CURDATE()"]
  else if inStr (str "yesterday") q then
    [str "DATE(created_at) = (CURDATE() - INTERVAL 1 DAY)"]
  else if inStr (str "this week") q || inStr (str "last 7 days") q then
    [str "created_at >= (CURDATE() - INTERVAL 7 DAY)"]
  else if inStr (str "this month") q then
    [str "created_at >= DATE_FORMAT(CURDATE(), '%Y-%m-01')"]
  else []

/-- Free-text block of `_build_conditions_from_question`: one OR-joined
group of `LOWER(text) LIKE '%kw%'` fragments when keywords exist. -/
def text_conditions (question : Str) : List Str :=
  let keywords := _extract_text_keywords question
  if keywords.isEmpty then []
  else
    [str "(" ++
      joinWith (str " OR ")
        (keywords.map (fun kw => str "LOWER(text) LIKE '%" ++ kw ++ str "%'")) ++
      str ")"]

/-- Model of `_build_conditions_from_question` from `llm_sql.py`: the blocks above,
appended in source order (priority, categories, status, date, free text). -/
def _build_conditions_from_question (question : Str) : List Str :=
  let q := lowerL question
  priority_conditions q ++ category_conditions q ++ status_conditions q ++
    date_conditions q ++ text_conditions question

/-- The forbidden substrings of `_clean_columns_expression`. -/
def forbidden_words : List Str :=
  [str "from", str "where", str "join", str "limit", str "tickets"]

/-- The fixed fallback column list of `_clean_columns_expression`. -/
def default_columns : Str :=
  str "id, text, category, priority, status, created_at"

/-- Model of `_clean_columns_expression` from `llm_sql.py`: strip and lower-case;
`COUNT(*)` if the result contains `count`; otherwise accept the
comma-separated parts only if each matches `^[a-zA-Z0-9_() ]+$` and the
whole expression contains no forbidden substring, else fall back. -/
def _clean_columns_expression (expr : Str) : Str :=
  let e := lowerL (stripL expr)
  if inStr (str "count") e then str "COUNT(*)"
  else
    let parts := (splitOnChar ',' e).map stripL
    if (parts.all fun p => !p.isEmpty && p.all isAllowedChar) &&
        !(forbidden_words.any fun f => inStr f e) then
      joinWith (str ", ") parts
    else default_columns

/-- Model of `generate_sql_from_question` from `llm_sql.py`.  The decoded suggester
text (the FLAN-T5 output, an external black box) is the explicit second
argument; everything after the `tokenizer.decode` call is transcribed
directly from the source. -/
def generate_sql_from_question (question : Str) (suggester_output : Str) : Str :=
  let q_lower := lowerL question
  let expr := _clean_columns_expression suggester_output
  let is_count :=
    inStr (str "how many") q_lower || inStr (str "count") q_lower ||
      inStr (str "count(") (lowerL expr)
  let select_clause :=
    if is_count then str "SELECT COUNT(*) AS count" else str "SELECT " ++ expr
  let conditions := _build_conditions_from_question question
  let sql := select_clause ++ str " FROM tickets"
  let sql :=
    if conditions.isEmpty then sql
    else sql ++ str " WHERE " ++ joinWith (str " AND ") conditions
  let sql := if is_count then sql else sql ++ str " LIMIT 50"
  sql ++ str ";"

/-- Model of `explain_sql` from `llm_sql.py`: scan the lower-cased SQL for known
fragments, join the matched phrases with spaces, capitalize, add a period. -/
def explain_sql (sql : Str) : Str :=
  let sql_lower := lowerL sql
  let explanation :=
    (if inStr (str "count(*)") sql_lower then
      [str "This query counts the number of tickets"]
     else [str "This query retrieves ticket details"]) ++
    (if inStr (str "priority = 'high'") sql_lower then
      [str "with high priority"] else []) ++
    (if inStr (str "priority = 'medium'") sql_lower then
      [str "with medium priority"] else []) ++
    (if inStr (str "priority = 'low'") sql_lower then
      [str "with low priority"] else []) ++
    (if inStr (str "category = 'technical'") sql_lower then
      [str "related to technical issues"] else []) ++
    (if inStr (str "category = 'billing'") sql_lower then
      [str "related to billing issues"] else []) ++
    (if inStr (str "category = 'general'") sql_lower then
      [str "related to general issues"] else []) ++
    (if inStr (str "status = 'open'") sql_lower then
      [str "that are currently open"] else []) ++
    (if inStr (str "status = 'closed'") sql_lower then
      [str "that are closed"] else []) ++
    (if inStr (str "limit") sql_lower then
      [str "and limits the results to 50 records"] else [])
  pyCapitalize (joinWith (str " ") explanation) ++ str "."

/-- The SELECT-only guard of the `/nl-query` route in `app.py`:
`sql.lower().strip().startswith("select")`. -/
def nl_query_select_guard (sql : Str) : Bool :=
  decide (str "select" <+: stripL (lowerL sql))

/-- Predicate `hasPair a b s`: some character `a` is immediately followed by `b`
somewhere in `s` (used to refute substring containment). -/
def hasPair (a b : Char) : Str → Bool
  | [] => false
  | [_] => false
  | x :: y :: rest => (x == a && y == b) || hasPair a b (y :: rest)

/-- Predicate `lastIs a s`: the last character of `s` is `a`. -/
def lastIs (a : Char) : Str → Bool
  | [] => false
  | [x] => x == a
  | _ :: x :: t => lastIs a (x :: t)

/-- Predicate `headIs b s`: the first character of `s` is `b`. -/
def headIs (b : Char) : Str → Bool
  | [] => false
  | x :: _ => x == b

/-- The three category condition fragments, indexed. -/
def category_cond : Fin 3 → Str
  | 0 => str "category = 'Technical'"
  | 1 => str "category = 'Billing'"
  | 2 => str "category = 'General'"

/-- The three category phrases of the explanation generator, indexed. -/
def category_phrase : Fin 3 → Str
  | 0 => str "related to technical issues"
  | 1 => str "related to billing issues"
  | 2 => str "related to general issues"

/-- All three category phrases. -/
def category_phrases : List Str :=
  [category_phrase 0, category_phrase 1, category_phrase 2]

example : _clean_columns_expression (str "id, status") = str "id, status" := by decide

example : _clean_columns_expression (str "  COUNT(*) ") = str "COUNT(*)" := by decide

example : _clean_columns_expression (str "DROP TABLE tickets") = default_columns := by
  decide

example : _clean_columns_expression (str "id; drop") = default_columns := by decide

example :
    _build_conditions_from_question (str "how many tickets are open") =
      [str "status = 'Open'",
       str "(LOWER(text) LIKE '%how%' OR LOWER(text) LIKE '%many%')"] := by decide

example :
    generate_sql_from_question (str "how many tickets are open") (str "id") =
      str "SELECT COUNT(*) AS count FROM tickets WHERE status = 'Open' AND (LOWER(text) LIKE '%how%' OR LOWER(text) LIKE '%many%');" := by
  decide

example :
    generate_sql_from_question (str "show me tickets with high priority from today")
        (str "id; drop") =
      str "SELECT id, text, category, priority, status, created_at FROM tickets WHERE priority = 'High' AND DATE(created_at) = CURDATE() AND (LOWER(text) LIKE '%from%') LIMIT 50;" := by
  decide

example :
    explain_sql (str "SELECT COUNT(*) AS count FROM tickets WHERE status = 'Open';") =
      str "This query counts the number of tickets that are currently open." := by
  decide

/-! ## Basic lemmas about the string model -/

theorem inStr_iff {p h : Str} : inStr p h = true ↔ p <:+: h := by
  simp [inStr]

theorem inStr_false_iff {p h : Str} : inStr p h = false ↔ ¬ p <:+: h := by
  simp [inStr]

theorem inStr_append_left {p h : Str} (r : Str) (hp : inStr p h = true) :
    inStr p (h ++ r) = true := by
  rw [inStr_iff] at hp ⊢
  exact hp.trans ⟨[], r, by simp⟩

theorem inStr_append_right {p h : Str} (l : Str) (hp : inStr p h = true) :
    inStr p (l ++ h) = true := by
  rw [inStr_iff] at hp ⊢
  exact hp.trans ⟨l, [], by simp⟩

theorem prefix_append_split {α : Type} {p l r : List α} (h : p <+: l ++ r) :
    p <+: l ∨ ∃ t, p = l ++ t ∧ t <+: r := by
  induction l generalizing p with
  | nil => exact Or.inr ⟨p, rfl, h⟩
  | cons a l ih =>
    cases p with
    | nil => exact Or.inl List.nil_prefix
    | cons x p' =>
      rw [List.cons_append, List.cons_prefix_cons] at h
      obtain ⟨rfl, h'⟩ := h
      rcases ih h' with h'' | ⟨t, rfl, ht⟩
      · exact Or.inl (List.cons_prefix_cons.2 ⟨rfl, h''⟩)
      · exact Or.inr ⟨t, by simp, ht⟩

theorem infix_append_split {α : Type} {p l r : List α} (h : p <:+: l ++ r) :
    p <:+: l ∨ p <:+: r ∨ ∃ s t, p = s ++ t ∧ s <:+ l ∧ t <+: r := by
  induction l generalizing p with
  | nil =>
    exact Or.inr (Or.inl h)
  | cons a l ih =>
    rw [List.cons_append, List.infix_cons_iff] at h
    rcases h with h | h
    · rw [← List.cons_append] at h
      rcases prefix_append_split h with h' | ⟨t, rfl, ht⟩
      · exact Or.inl h'.isInfix
      · exact Or.inr (Or.inr ⟨a :: l, t, rfl, List.suffix_refl _, ht⟩)
    · rcases ih h with h' | h' | ⟨s, t, rfl, hs, ht⟩
      · exact Or.inl (h'.trans (List.infix_cons_iff.2 (Or.inr (List.infix_refl _))))
      · exact Or.inr (Or.inl h')
      · exact Or.inr (Or.inr ⟨s, t, rfl, hs.trans (List.suffix_cons a l), ht⟩)

/-- If `p` occurs in `l ++ r` but not in `r`, and no nonempty suffix of `p`
is a prefix of `r`, then `p` occurs in `l`. -/
theorem infix_append_elim {p l r : Str} (h : p <:+: l ++ r)
    (hr : inStr p r = false)
    (hspan : ∀ t ∈ p.tails, t ∈ r.inits → t = []) : p <:+: l := by
  rcases infix_append_split h with h' | h' | ⟨s, t, hp, hs, ht⟩
  · exact h'
  · exact absurd h' (inStr_false_iff.1 hr)
  · have ht' : t = [] := by
      refine hspan t ?_ ((List.mem_inits _ _).2 ht)
      exact (List.mem_tails _ _).2 ⟨s, hp.symm⟩
    subst ht'
    rw [List.append_nil] at hp
    subst hp
    exact hs.isInfix

theorem mem_of_getLast?_eq : ∀ (l : Str) (c : Char), l.getLast? = some c → c ∈ l
  | [], _, h => by simp at h
  | [a], c, h => by
    have ha : a = c := by simpa [List.getLast?] using h
    subst ha
    exact List.mem_singleton_self a
  | a :: b :: t, c, h => by
    rw [List.getLast?_cons_cons] at h
    exact List.mem_cons_of_mem a (mem_of_getLast?_eq (b :: t) c h)

/-! ## Lemmas about stripping and lower-casing -/

theorem toNat_ofNatAux (n : Nat) (h : n.isValidChar) :
    (Char.ofNatAux n h).toNat = n := by
  simp [Char.ofNatAux, Char.toNat, UInt32.toNat]

theorem toNat_pyLowerChar (c : Char) :
    (pyLowerChar c).toNat =
      if 65 ≤ c.toNat ∧ c.toNat ≤ 90 then c.toNat + 32 else c.toNat := by
  unfold pyLowerChar
  split
  · rw [toNat_ofNatAux]
  · simp_all

theorem isSpace_pyLowerChar (c : Char) : isSpace (pyLowerChar c) = isSpace c := by
  have h := toNat_pyLowerChar c
  by_cases hc : 65 ≤ c.toNat ∧ c.toNat ≤ 90
  · rw [if_pos hc] at h
    have hL : isSpace (pyLowerChar c) = false := by
      unfold isSpace
      rw [h]
      simp
      omega
    have hR : isSpace c = false := by
      unfold isSpace
      simp
      omega
    rw [hL, hR]
  · rw [if_neg hc] at h
    unfold isSpace
    rw [h]

theorem lowerL_append (a b : Str) : lowerL (a ++ b) = lowerL a ++ lowerL b := by
  simp [lowerL]

theorem stripL_lowerL (s : Str) : stripL (lowerL s) = lowerL (stripL s) := by
  unfold stripL lowerL
  have hcong : (isSpace ∘ pyLowerChar) = isSpace := by
    funext c
    simp [isSpace_pyLowerChar]
  rw [List.dropWhile_map, hcong, ← List.map_reverse, List.dropWhile_map, hcong,
    ← List.map_reverse]

theorem infix_dropWhile_of_none {P : Char → Bool} {p : Str}
    (hp : ∀ c ∈ p, P c = false) (hne : p ≠ []) :
    ∀ {l : Str}, p <:+: l → p <:+: l.dropWhile P := by
  intro l
  induction l with
  | nil =>
    intro h
    simpa using h
  | cons a l ih =>
    intro h
    rw [List.dropWhile_cons]
    split
    · rename_i hPa
      rcases List.infix_cons_iff.1 h with h' | h'
      · cases p with
        | nil => exact absurd rfl hne
        | cons x p' =>
          rw [List.cons_prefix_cons] at h'
          obtain ⟨rfl, -⟩ := h'
          have := hp x (List.mem_cons_self x p')
          rw [this] at hPa
          cases hPa
      · exact ih h'
    · exact h

theorem infix_stripL_of_no_space {p l : Str} (hp : ∀ c ∈ p, isSpace c = false)
    (hne : p ≠ []) (h : p <:+: l) : p <:+: stripL l := by
  unfold stripL
  have h1 : p <:+: l.dropWhile isSpace := infix_dropWhile_of_none hp hne h
  have h2 : p.reverse <:+: (l.dropWhile isSpace).reverse :=
    List.reverse_infix.2 h1
  have hp' : ∀ c ∈ p.reverse, isSpace c = false := by
    intro c hc
    exact hp c (List.mem_reverse.1 hc)
  have hne' : p.reverse ≠ [] := by
    intro hcon
    exact hne (by simpa using congrArg List.reverse hcon)
  have h3 : p.reverse <:+: ((l.dropWhile isSpace).reverse).dropWhile isSpace :=
    infix_dropWhile_of_none hp' hne' h2
  have h4 := List.reverse_infix.2 h3
  rwa [List.reverse_reverse] at h4

theorem stripL_infix_self (l : Str) : stripL l <:+: l := by
  unfold stripL
  have h0 : ((l.dropWhile isSpace).reverse.dropWhile isSpace) <:+
      (l.dropWhile isSpace).reverse := List.dropWhile_suffix isSpace
  have h1 : ((l.dropWhile isSpace).reverse.dropWhile isSpace).reverse <+:
      l.dropWhile isSpace := by
    apply List.reverse_suffix.1
    rwa [List.reverse_reverse]
  exact h1.isInfix.trans (List.dropWhile_suffix isSpace).isInfix

/-! ## Lemmas about `hasPair` -/

theorem headIs_append_cons (b x₀ : Char) (x y : Str) :
    headIs b ((x₀ :: x) ++ y) = headIs b (x₀ :: x) := rfl

theorem lastIs_append_of_ne_nil (a : Char) (x : Str) {y : Str} (hy : y ≠ []) :
    lastIs a (x ++ y) = lastIs a y := by
  induction x with
  | nil => rfl
  | cons x₀ x' ih =>
    cases hxy : x' ++ y with
    | nil =>
      rcases List.append_eq_nil.1 hxy with ⟨-, rfl⟩
      exact absurd rfl hy
    | cons z zs =>
      show lastIs a (x₀ :: (x' ++ y)) = lastIs a y
      rw [hxy]
      show lastIs a (z :: zs) = lastIs a y
      rw [← hxy]
      exact ih

theorem hasPair_append (a b : Char) (x y : Str) :
    hasPair a b (x ++ y) =
      (hasPair a b x || hasPair a b y || (lastIs a x && headIs b y)) := by
  induction x with
  | nil => simp [hasPair, lastIs]
  | cons x₀ x' ih =>
    cases x' with
    | nil =>
      cases y with
      | nil => simp [hasPair, headIs]
      | cons y₀ y' =>
        show hasPair a b (x₀ :: y₀ :: y') = _
        rw [hasPair]
        simp only [hasPair, lastIs, headIs]
        cases hasPair a b (y₀ :: y') <;>
          cases x₀ == a <;> cases y₀ == b <;> rfl
    | cons x₁ x'' =>
      show hasPair a b (x₀ :: x₁ :: (x'' ++ y)) = _
      rw [hasPair]
      have e : x₁ :: (x'' ++ y) = (x₁ :: x'') ++ y := rfl
      rw [e, ih]
      show _ = ((x₀ == a && x₁ == b || hasPair a b (x₁ :: x'')) || hasPair a b y ||
        (lastIs a (x₀ :: x₁ :: x'') && headIs b y))
      have e2 : lastIs a (x₀ :: x₁ :: x'') = lastIs a (x₁ :: x'') := rfl
      rw [e2]
      cases x₀ == a <;> cases x₁ == b <;> cases hasPair a b (x₁ :: x'') <;>
        cases hasPair a b y <;> cases lastIs a (x₁ :: x'') <;>
        cases headIs b y <;> rfl

theorem hasPair_not_mem_left {a b : Char} {x : Str} (h : a ∉ x) :
    hasPair a b x = false := by
  induction x with
  | nil => rfl
  | cons x₀ x' ih =>
    cases x' with
    | nil => rfl
    | cons x₁ x'' =>
      have hx₀ : (x₀ == a) = false := by
        rw [beq_eq_false_iff_ne]
        intro e
        exact h (e ▸ List.mem_cons_self _ _)
      have h' : a ∉ x₁ :: x'' := fun hm => h (List.mem_cons_of_mem _ hm)
      show ((x₀ == a && x₁ == b) || hasPair a b (x₁ :: x'')) = false
      rw [hx₀, Bool.false_and, Bool.false_or]
      exact ih h'

theorem hasPair_infix_false {a b : Char} {p l : Str} (hp : p <:+: l)
    (hl : hasPair a b l = false) : hasPair a b p = false := by
  obtain ⟨u, v, huv⟩ := hp
  have h1 : hasPair a b (u ++ p ++ v) = false := by rw [huv]; exact hl
  rw [hasPair_append, Bool.or_eq_false_iff, Bool.or_eq_false_iff] at h1
  have h2 := h1.1.1
  rw [hasPair_append, Bool.or_eq_false_iff, Bool.or_eq_false_iff] at h2
  exact h2.1.2

theorem not_infix_of_pair {a b : Char} {p l : Str} (hp : hasPair a b p = true)
    (hl : hasPair a b l = false) : ¬ p <:+: l := by
  intro h
  rw [hasPair_infix_false h hl] at hp
  cases hp

/-! ## Character-class facts about extracted keywords -/

theorem pyLowerChar_lower_of_letter {c : Char} (h : isAsciiLetter c = true) :
    97 ≤ (pyLowerChar c).toNat ∧ (pyLowerChar c).toNat ≤ 122 := by
  have ht := toNat_pyLowerChar c
  unfold isAsciiLetter at h
  simp only [Bool.or_eq_true, Bool.and_eq_true, decide_eq_true_eq] at h
  split at ht <;> omega

theorem mem_pySetList : ∀ {l : List Str} {x : Str}, x ∈ pySetList l → x ∈ l := by
  intro l
  induction l with
  | nil =>
    intro x h
    simp [pySetList] at h
  | cons w rest ih =>
    intro x h
    rw [pySetList] at h
    rcases List.mem_cons.1 h with rfl | h'
    · exact List.mem_cons_self _ _
    · exact List.mem_cons_of_mem _ (ih (List.mem_filter.1 h').1)

theorem letterRunsAux_chars :
    ∀ (l cur : Str), (∀ c ∈ cur, isAsciiLetter c = true) →
      ∀ r ∈ letterRunsAux cur l, ∀ c ∈ r, isAsciiLetter c = true := by
  intro l
  induction l with
  | nil =>
    intro cur hcur r hr
    simp only [letterRunsAux] at hr
    split at hr
    · simp at hr
    · rw [List.mem_singleton] at hr
      subst hr
      intro c hc
      exact hcur c (List.mem_reverse.1 hc)
  | cons c₀ l ih =>
    intro cur hcur r hr
    simp only [letterRunsAux] at hr
    split at hr
    · rename_i hl
      refine ih (c₀ :: cur) ?_ r hr
      intro c hc
      rcases List.mem_cons.1 hc with rfl | hc'
      · exact hl
      · exact hcur c hc'
    · split at hr
      · exact ih [] (by simp) r hr
      · rcases List.mem_cons.1 hr with rfl | hr'
        · intro c hc
          exact hcur c (List.mem_reverse.1 hc)
        · exact ih [] (by simp) r hr'

theorem keyword_chars {q kw : Str} (h : kw ∈ _extract_text_keywords q) :
    ∀ c ∈ kw, 97 ≤ c.toNat ∧ c.toNat ≤ 122 := by
  unfold _extract_text_keywords at h
  have h1 := mem_pySetList h
  have h2 := (List.mem_filter.1 h1).1
  rw [List.mem_map] at h2
  obtain ⟨run, hrun, hkw⟩ := h2
  have hrun' := (List.mem_filter.1 hrun).1
  have hchars := letterRunsAux_chars q [] (by simp) run hrun'
  intro c hc
  rw [← hkw] at hc
  rw [List.mem_map] at hc
  obtain ⟨c₀, hc₀, rfl⟩ := hc
  exact pyLowerChar_lower_of_letter (hchars c₀ hc₀)

theorem beq_false_of_toNat_ne {c d : Char} (h : c.toNat ≠ d.toNat) :
    (c == d) = false := by
  rw [beq_eq_false_iff_ne]
  intro e
  exact h (by rw [e])

/-! ## Shape of the assembled SQL -/

theorem concat2_eq {a b d : Str} (h : a ++ b = d) (Z : Str) :
    a ++ (b ++ Z) = d ++ Z := by
  rw [← h, List.append_assoc]

theorem concat3_eq {a b c d e : Str} (h : a ++ (b ++ c) = d ++ e) (Z : Str) :
    a ++ (b ++ (c ++ Z)) = d ++ (e ++ Z) := by
  have h' := congrArg (fun t => t ++ Z) h
  simpa [List.append_assoc] using h'

theorem generate_sql_shape (q e : Str) :
    ∃ m : Str, generate_sql_from_question q e = str "SELECT " ++ (m ++ str ";") := by
  cases hb : (inStr (str "how many") (lowerL q) || inStr (str "count") (lowerL q) ||
      inStr (str "count(") (lowerL (_clean_columns_expression e))) with
  | true =>
    cases hc : (_build_conditions_from_question q).isEmpty with
    | true =>
      refine ⟨str "COUNT(*) AS count FROM tickets", ?_⟩
      simp only [generate_sql_from_question, hb, hc, if_true, if_false]
      decide
    | false =>
      refine ⟨str "COUNT(*) AS count FROM tickets WHERE " ++
        joinWith (str " AND ") (_build_conditions_from_question q), ?_⟩
      simp only [generate_sql_from_question, hb, hc, if_true, if_false,
        Bool.false_eq_true, List.append_assoc]
      exact concat3_eq (by decide) _
  | false =>
    cases hc : (_build_conditions_from_question q).isEmpty with
    | true =>
      refine ⟨_clean_columns_expression e ++ str " FROM tickets LIMIT 50", ?_⟩
      simp only [generate_sql_from_question, hb, hc, if_true, if_false,
        Bool.false_eq_true, List.append_assoc]
      exact congrArg (fun z => str "SELECT " ++ (_clean_columns_expression e ++ z))
        (by decide)
    | false =>
      refine ⟨_clean_columns_expression e ++ (str " FROM tickets WHERE " ++
        (joinWith (str " AND ") (_build_conditions_from_question q) ++
          str " LIMIT 50")), ?_⟩
      simp only [generate_sql_from_question, hb, hc, if_true, if_false,
        Bool.false_eq_true, List.append_assoc]
      exact congrArg (fun z => str "SELECT " ++ (_clean_columns_expression e ++ z))
        (concat2_eq (by decide) _)

theorem stripL_keep {c d : Char} (m : Str) (hc : isSpace c = false)
    (hd : isSpace d = false) : stripL (c :: (m ++ [d])) = c :: (m ++ [d]) := by
  unfold stripL
  have h1 : (c :: (m ++ [d])).dropWhile isSpace = c :: (m ++ [d]) := by
    rw [List.dropWhile_cons, hc]
    simp
  rw [h1]
  have h2 : (c :: (m ++ [d])).reverse = d :: (m.reverse ++ [c]) := by
    simp
  rw [h2]
  have h3 : (d :: (m.reverse ++ [c])).dropWhile isSpace = d :: (m.reverse ++ [c]) := by
    rw [List.dropWhile_cons, hd]
    simp
  rw [h3, ← h2, List.reverse_reverse]

theorem select_guard_of_shape (m : Str) :
    nl_query_select_guard (str "SELECT " ++ (m ++ str ";")) = true := by
  unfold nl_query_select_guard
  rw [decide_eq_true_eq]
  have hl : lowerL (str "SELECT " ++ (m ++ str ";")) =
      str "select " ++ (lowerL m ++ str ";") := by
    rw [lowerL_append, lowerL_append]
    have e1 : lowerL (str "SELECT ") = str "select " := by decide
    have e2 : lowerL (str ";") = str ";" := by decide
    rw [e1, e2]
  rw [hl]
  have hshape : str "select " ++ (lowerL m ++ str ";") =
      's' :: ((str "elect " ++ lowerL m) ++ [';']) := by
    simp [str, List.append_assoc]
  rw [hshape, stripL_keep _ (by decide) (by decide), ← hshape]
  have e0 : str "select " = str "select" ++ str " " := by decide
  rw [e0, List.append_assoc]
  exact List.prefix_append _ _

/-- C2: every SQL string produced by `generate_sql_from_question` (for any
question and any suggester output) passes the `app.py` guard
`sql.lower().strip().startswith("select")`, so the "Only SELECT queries are
allowed" branch is unreachable for generated SQL. -/
theorem generated_sql_passes_select_guard (question suggester_output : Str) :
    nl_query_select_guard (generate_sql_from_question question suggester_output) =
      true := by
  obtain ⟨m, hm⟩ := generate_sql_shape question suggester_output
  rw [hm]
  exact select_guard_of_shape m

/-- C6: for a question whose lower-cased text contains neither "how many"
nor "count", and whose sanitized projection does not contain "count(",
the assembled SQL ends with "LIMIT 50;". -/
theorem noncount_sql_ends_with_limit (question suggester_output : Str)
    (h1 : inStr (str "how many") (lowerL question) = false)
    (h2 : inStr (str "count") (lowerL question) = false)
    (h3 : inStr (str "count(")
        (lowerL (_clean_columns_expression suggester_output)) = false) :
    str "LIMIT 50;" <:+ generate_sql_from_question question suggester_output := by
  simp only [generate_sql_from_question, h1, h2, h3, Bool.or_self, Bool.or_false,
    Bool.false_eq_true, if_false, List.append_assoc]
  have e1 : str " LIMIT 50" ++ str ";" = str " LIMIT 50;" := by decide
  have hsuf : str "LIMIT 50;" <:+ str " LIMIT 50;" := by decide
  split
  · rw [e1]
    exact hsuf.trans (List.suffix_append _ _)
  · rw [e1]
    exact hsuf.trans (List.suffix_append _ _)

/-- Witness for `noncount_sql_ends_with_limit` at a concrete input. -/
theorem noncount_sql_ends_with_limit_witness :
    str "LIMIT 50;" <:+
      generate_sql_from_question (str "show open tickets") (str "id") :=
  noncount_sql_ends_with_limit _ _ (by decide) (by decide) (by decide)

/-! ## C1: the sanitizer's forbidden-substring behaviour -/

/-- C1 counterexample: `"count from"` contains the forbidden substring
`"from"`, yet the sanitizer returns `COUNT(*)` (the `count` short-circuit
fires first), not the default fallback list. -/
theorem clean_columns_forbidden_counterexample :
    inStr (str "from") (lowerL (str "count from")) = true ∧
    _clean_columns_expression (str "count from") ≠ default_columns := by decide

/-- C1 (amended): every expression containing a forbidden substring
(case-insensitively) whose lower-cased text does not also contain
`"count"` is rejected, falling back to the default column list. -/
theorem clean_columns_forbidden_fallback (expr f : Str)
    (hf : f ∈ forbidden_words)
    (hin : inStr f (lowerL expr) = true)
    (hcount : inStr (str "count") (lowerL expr) = false) :
    _clean_columns_expression expr = default_columns := by
  simp only [_clean_columns_expression]
  rw [← stripL_lowerL]
  have hc : inStr (str "count") (stripL (lowerL expr)) = false := by
    rw [inStr_false_iff]
    intro hcon
    exact (inStr_false_iff.1 hcount) (hcon.trans (stripL_infix_self (lowerL expr)))
  have hfprops : (∀ c ∈ f, isSpace c = false) ∧ f ≠ [] := by
    fin_cases hf <;> exact ⟨by decide, by decide⟩
  have hin' : f <:+: stripL (lowerL expr) :=
    infix_stripL_of_no_space hfprops.1 hfprops.2 (inStr_iff.1 hin)
  have hany : (forbidden_words.any fun g => inStr g (stripL (lowerL expr))) = true := by
    rw [List.any_eq_true]
    exact ⟨f, hf, inStr_iff.2 hin'⟩
  rw [hc, hany]
  simp

/-- Witness for `clean_columns_forbidden_fallback` at a concrete input. -/
theorem clean_columns_forbidden_fallback_witness :
    _clean_columns_expression (str "id FROM tickets") = default_columns :=
  clean_columns_forbidden_fallback _ (str "from") (by decide) (by decide) (by decide)

/-! ## C4 and C5: the two worked examples of the specification -/

/-- C4 counterexample: on `"how many tickets are open"` the generator does
not return the SQL claimed by the specification — the words `"how"` and
`"many"` are not stop words, so a free-text LIKE group is appended. -/
theorem how_many_open_example_counterexample :
    generate_sql_from_question (str "how many tickets are open") (str "id") ≠
      str "SELECT COUNT(*) AS count FROM tickets WHERE status = 'Open';" := by
  decide

/-- C4 (amended): on `"how many tickets are open"` (and any suggester
output) the generator returns the count SQL with the extra free-text group
over the non-stop-words `how` and `many` (keyword order per the `pySetList`
model of `list(set(...))`). -/
theorem how_many_open_example_sql (suggester_output : Str) :
    generate_sql_from_question (str "how many tickets are open") suggester_output =
      str "SELECT COUNT(*) AS count FROM tickets WHERE status = 'Open' AND (LOWER(text) LIKE '%how%' OR LOWER(text) LIKE '%many%');" := by
  simp only [generate_sql_from_question]
  have h1 : inStr (str "how many") (lowerL (str "how many tickets are open")) =
      true := by decide
  rw [h1]
  simp only [Bool.true_or, if_true]
  have h2 : _build_conditions_from_question (str "how many tickets are open") =
      [str "status = 'Open'",
       str "(LOWER(text) LIKE '%how%' OR LOWER(text) LIKE '%many%')"] := by decide
  rw [h2]
  decide

/-- C5 counterexample: on `"show me tickets with high priority from today"`
with a rejected suggester output, the generator does not return the SQL
claimed by the specification — `"from"` is not a stop word, so a free-text
LIKE group is appended. -/
theorem high_priority_today_example_counterexample :
    generate_sql_from_question
        (str "show me tickets with high priority from today") (str "id; drop") ≠
      str "SELECT id, text, category, priority, status, created_at FROM tickets WHERE priority = 'High' AND DATE(created_at) = CURDATE() LIMIT 50;" := by
  decide

/-- C5 (amended): on `"show me tickets with high priority from today"`,
whenever the suggester output is rejected (sanitizer falls back to the
default column list), the generator returns the example SQL with the extra
free-text condition `(LOWER(text) LIKE '%from%')`. -/
theorem high_priority_today_example_sql (suggester_output : Str)
    (hrej : _clean_columns_expression suggester_output = default_columns) :
    generate_sql_from_question
        (str "show me tickets with high priority from today") suggester_output =
      str "SELECT id, text, category, priority, status, created_at FROM tickets WHERE priority = 'High' AND DATE(created_at) = CURDATE() AND (LOWER(text) LIKE '%from%') LIMIT 50;" := by
  simp only [generate_sql_from_question, hrej]
  have h2 : _build_conditions_from_question
      (str "show me tickets with high priority from today") =
      [str "priority = 'High'", str "DATE(created_at) = CURDATE()",
       str "(LOWER(text) LIKE '%from%')"] := by decide
  rw [h2]
  decide

/-- Witness for `high_priority_today_example_sql` at a concrete input. -/
theorem high_priority_today_example_sql_witness :
    generate_sql_from_question
        (str "show me tickets with high priority from today") (str "id; drop") =
      str "SELECT id, text, category, priority, status, created_at FROM tickets WHERE priority = 'High' AND DATE(created_at) = CURDATE() AND (LOWER(text) LIKE '%from%') LIMIT 50;" :=
  high_priority_today_example_sql _ (by decide)

/-! ## C9: determinism of the explanation generator -/

/-- C9: `explain_sql` is a pure function of the SQL text — identical SQL
strings always yield identical explanations. -/
theorem explain_sql_deterministic (sql₁ sql₂ : Str) (h : sql₁ = sql₂) :
    explain_sql sql₁ = explain_sql sql₂ := by
  rw [h]

/-- Witness for `explain_sql_deterministic` at a concrete input. -/
theorem explain_sql_deterministic_witness :
    explain_sql (str "SELECT id FROM tickets LIMIT 50;") =
      explain_sql (str "SELECT id FROM tickets LIMIT 50;") :=
  explain_sql_deterministic _ _ rfl

/-! ## C10: shape of every explanation -/

theorem joinWith_cons_shape (sep : Str) (a : Str) (rest : List Str) :
    ∃ z, joinWith sep (a :: rest) = a ++ z := by
  cases rest with
  | nil => exact ⟨[], by simp [joinWith]⟩
  | cons b r => exact ⟨sep ++ joinWith sep (b :: r), by simp [joinWith, List.append_assoc]⟩

theorem explain_sql_head (sql : Str) :
    ∃ rest : List Str,
      explain_sql sql =
        pyCapitalize (joinWith (str " ")
          ((if inStr (str "count(*)") (lowerL sql) = true then
              [str "This query counts the number of tickets"]
            else [str "This query retrieves ticket details"]) ++ rest)) ++ str "." := by
  refine ⟨(if inStr (str "priority = 'high'") (lowerL sql) = true then
      [str "with high priority"] else []) ++
    ((if inStr (str "priority = 'medium'") (lowerL sql) = true then
      [str "with medium priority"] else []) ++
    ((if inStr (str "priority = 'low'") (lowerL sql) = true then
      [str "with low priority"] else []) ++
    ((if inStr (str "category = 'technical'") (lowerL sql) = true then
      [str "related to technical issues"] else []) ++
    ((if inStr (str "category = 'billing'") (lowerL sql) = true then
      [str "related to billing issues"] else []) ++
    ((if inStr (str "category = 'general'") (lowerL sql) = true then
      [str "related to general issues"] else []) ++
    ((if inStr (str "status = 'open'") (lowerL sql) = true then
      [str "that are currently open"] else []) ++
    ((if inStr (str "status = 'closed'") (lowerL sql) = true then
      [str "that are closed"] else []) ++
    (if inStr (str "limit") (lowerL sql) = true then
      [str "and limits the results to 50 records"] else [])))))))), ?_⟩
  simp only [explain_sql, List.append_assoc]

theorem explain_shape_aux (ta z : Str)
    (hta : List.map pyLowerChar ta = ta)
    (hpre : str "his query" <+: ta) :
    str "This query" <+: (pyCapitalize (('T' :: ta) ++ z) ++ str ".") ∧
    str "." <:+ (pyCapitalize (('T' :: ta) ++ z) ++ str ".") ∧
    (pyCapitalize (('T' :: ta) ++ z) ++ str ".") ≠ [] := by
  have hcap : pyCapitalize (('T' :: ta) ++ z) =
      'T' :: (ta ++ List.map pyLowerChar z) := by
    show pyUpperChar 'T' :: List.map pyLowerChar (ta ++ z) = _
    rw [List.map_append, hta]
    have : pyUpperChar 'T' = 'T' := by decide
    rw [this]
  rw [hcap]
  refine ⟨?_, ?_, ?_⟩
  · show str "This query" <+: 'T' :: ((ta ++ List.map pyLowerChar z) ++ str ".")
    have hTq : str "This query" = 'T' :: str "his query" := by decide
    rw [hTq, List.cons_prefix_cons]
    refine ⟨rfl, ?_⟩
    obtain ⟨t, ht⟩ := hpre
    rw [← ht, List.append_assoc, List.append_assoc]
    exact List.prefix_append _ _
  · exact List.suffix_append _ _
  · exact List.append_ne_nil_of_right_ne_nil _ (by decide)

/-- C10: for every input string whatsoever, the explanation produced by
`explain_sql` is a non-empty string that starts with "This query" and ends
with a period. -/
theorem explain_sql_always_this_query_period (sql : Str) :
    str "This query" <+: explain_sql sql ∧ str "." <:+ explain_sql sql ∧
      explain_sql sql ≠ [] := by
  obtain ⟨rest, hrest⟩ := explain_sql_head sql
  rw [hrest]
  cases hc : inStr (str "count(*)") (lowerL sql) with
  | false =>
    simp only [hc, Bool.false_eq_true, if_false]
    have hA : ([str "This query retrieves ticket details"] ++ rest) =
        str "This query retrieves ticket details" :: rest := rfl
    rw [hA]
    obtain ⟨z, hz⟩ := joinWith_cons_shape (str " ") _ rest
    rw [hz]
    have hT : str "This query retrieves ticket details" =
        'T' :: str "his query retrieves ticket details" := by decide
    rw [hT]
    exact explain_shape_aux _ z (by decide) (by decide)
  | true =>
    simp only [hc, if_true]
    have hA : ([str "This query counts the number of tickets"] ++ rest) =
        str "This query counts the number of tickets" :: rest := rfl
    rw [hA]
    obtain ⟨z, hz⟩ := joinWith_cons_shape (str " ") _ rest
    rw [hz]
    have hT : str "This query counts the number of tickets" =
        'T' :: str "his query counts the number of tickets" := by decide
    rw [hT]
    exact explain_shape_aux _ z (by decide) (by decide)

/-! ## C3: count questions produce counting SQL without LIMIT -/

theorem hasPair_joinWith (a b s₀ : Char) (s' : Str) (cs : List Str)
    (hsep : hasPair a b (s₀ :: s') = false)
    (hhead : (s₀ == b) = false)
    (hlast : lastIs a (s₀ :: s') = false)
    (hcs : ∀ c ∈ cs, hasPair a b c = false) :
    hasPair a b (joinWith (s₀ :: s') cs) = false := by
  induction cs with
  | nil => rfl
  | cons c cs ih =>
    cases cs with
    | nil => exact hcs c (List.mem_cons_self _ _)
    | cons c' cs' =>
      have hJ : hasPair a b (joinWith (s₀ :: s') (c' :: cs')) = false :=
        ih (fun x hx => hcs x (List.mem_cons_of_mem _ hx))
      show hasPair a b (c ++ (s₀ :: s') ++ joinWith (s₀ :: s') (c' :: cs')) = false
      rw [List.append_assoc, hasPair_append]
      have h1 : hasPair a b ((s₀ :: s') ++ joinWith (s₀ :: s') (c' :: cs')) = false := by
        rw [hasPair_append, hsep, hJ, hlast]
        rfl
      have h2 : headIs b ((s₀ :: s') ++ joinWith (s₀ :: s') (c' :: cs')) = false := by
        rw [headIs_append_cons]
        exact hhead
      rw [hcs c (List.mem_cons_self _ _), h1, h2, Bool.and_false]
      rfl

theorem priority_conditions_cases {q c : Str} (h : c ∈ priority_conditions q) :
    c = str "priority = 'High'" ∨ c = str "priority = 'Medium'" ∨
      c = str "priority = 'Low'" := by
  unfold priority_conditions at h
  split at h
  · exact Or.inl (List.mem_singleton.1 h)
  · split at h
    · exact Or.inr (Or.inl (List.mem_singleton.1 h))
    · split at h
      · exact Or.inr (Or.inr (List.mem_singleton.1 h))
      · simp at h

theorem category_conditions_cases {q c : Str} (h : c ∈ category_conditions q) :
    c = str "category = 'Technical'" ∨ c = str "category = 'Billing'" ∨
      c = str "category = 'General'" := by
  unfold category_conditions at h
  rw [List.mem_append, List.mem_append] at h
  rcases h with (h | h) | h
  · split at h
    · exact Or.inl (List.mem_singleton.1 h)
    · simp at h
  · split at h
    · exact Or.inr (Or.inl (List.mem_singleton.1 h))
    · simp at h
  · split at h
    · exact Or.inr (Or.inr (List.mem_singleton.1 h))
    · simp at h

theorem status_conditions_cases {q c : Str} (h : c ∈ status_conditions q) :
    c = str "status = 'Open'" ∨ c = str "status = 'Closed'" := by
  unfold status_conditions at h
  rw [List.mem_append] at h
  rcases h with h | h
  · split at h
    · exact Or.inl (List.mem_singleton.1 h)
    · simp at h
  · split at h
    · exact Or.inr (List.mem_singleton.1 h)
    · simp at h

theorem date_conditions_cases {q c : Str} (h : c ∈ date_conditions q) :
    c = str "DATE(created_at) = CURDATE()" ∨
      c = str "DATE(created_at) = (CURDATE() - INTERVAL 1 DAY)" ∨
      c = str "created_at >= (CURDATE() - INTERVAL 7 DAY)" ∨
      c = str "created_at >= DATE_FORMAT(CURDATE(), '%Y-%m-01')" := by
  unfold date_conditions at h
  split at h
  · exact Or.inl (List.mem_singleton.1 h)
  · split at h
    · exact Or.inr (Or.inl (List.mem_singleton.1 h))
    · split at h
      · exact Or.inr (Or.inr (Or.inl (List.mem_singleton.1 h)))
      · split at h
        · exact Or.inr (Or.inr (Or.inr (List.mem_singleton.1 h)))
        · simp at h

theorem text_conditions_cases {q c : Str} (h : c ∈ text_conditions q) :
    c = str "(" ++
      joinWith (str " OR ")
        ((_extract_text_keywords q).map
          (fun kw => str "LOWER(text) LIKE '%" ++ kw ++ str "%'")) ++ str ")" := by
  simp only [text_conditions] at h
  split at h
  · simp at h
  · exact List.mem_singleton.1 h

theorem like_fragment_no_IM {q kw : Str} (hkw : kw ∈ _extract_text_keywords q) :
    hasPair 'I' 'M' (str "LOWER(text) LIKE '%" ++ kw ++ str "%'") = false := by
  have hchars := keyword_chars hkw
  have hI : 'I' ∉ kw := by
    intro hm
    have h1 := hchars 'I' hm
    have h2 : ('I').toNat = 73 := by decide
    omega
  rw [hasPair_append, hasPair_append, hasPair_not_mem_left hI]
  have e1 : hasPair 'I' 'M' (str "LOWER(text) LIKE '%") = false := by decide
  have e2 : lastIs 'I' (str "LOWER(text) LIKE '%") = false := by decide
  have e3 : hasPair 'I' 'M' (str "%'") = false := by decide
  have e4 : headIs 'M' (str "%'") = false := by decide
  rw [e1, e2, e3, e4, Bool.and_false, Bool.false_and]
  rfl

theorem text_conditions_no_IM (q : Str) :
    ∀ c ∈ text_conditions q, hasPair 'I' 'M' c = false := by
  intro c hc
  rw [text_conditions_cases hc]
  have hJ : hasPair 'I' 'M'
      (joinWith (str " OR ")
        ((_extract_text_keywords q).map
          (fun kw => str "LOWER(text) LIKE '%" ++ kw ++ str "%'"))) = false := by
    apply hasPair_joinWith 'I' 'M' ' ' (str "OR ")
    · decide
    · decide
    · decide
    · intro x hx
      rw [List.mem_map] at hx
      obtain ⟨kw, hkw, rfl⟩ := hx
      exact like_fragment_no_IM hkw
  rw [hasPair_append, hasPair_append, hJ]
  have e1 : hasPair 'I' 'M' (str "(") = false := rfl
  have e2 : lastIs 'I' (str "(") = false := by decide
  have e3 : hasPair 'I' 'M' (str ")") = false := rfl
  have e4 : headIs 'M' (str ")") = false := by decide
  rw [e1, e2, e3, e4, Bool.and_false, Bool.false_and]
  rfl

theorem conds_no_IM (q : Str) :
    ∀ c ∈ _build_conditions_from_question q, hasPair 'I' 'M' c = false := by
  intro c hc
  simp only [_build_conditions_from_question, List.mem_append] at hc
  rcases hc with ((((hc | hc) | hc) | hc) | hc)
  · rcases priority_conditions_cases hc with rfl | rfl | rfl <;> decide
  · rcases category_conditions_cases hc with rfl | rfl | rfl <;> decide
  · rcases status_conditions_cases hc with rfl | rfl <;> decide
  · rcases date_conditions_cases hc with rfl | rfl | rfl | rfl <;> decide
  · exact text_conditions_no_IM q c hc

theorem count_sql_shape (question suggester_output : Str)
    (h : inStr (str "how many") (lowerL question) = true) :
    ∃ W, generate_sql_from_question question suggester_output =
        (str "SELECT COUNT(*) AS count FROM tickets" ++ W) ++ str ";" ∧
      hasPair 'I' 'M' W = false := by
  cases hc : (_build_conditions_from_question question).isEmpty with
  | true =>
    refine ⟨[], ?_, rfl⟩
    simp only [generate_sql_from_question, h, Bool.true_or, if_true, hc]
    rw [List.append_nil]
    exact congrArg (fun z => z ++ str ";") (by decide)
  | false =>
    refine ⟨str " WHERE " ++
      joinWith (str " AND ") (_build_conditions_from_question question), ?_, ?_⟩
    · simp only [generate_sql_from_question, h, Bool.true_or, if_true, hc,
        Bool.false_eq_true, if_false]
      refine congrArg (fun z => z ++ str ";") ?_
      simp only [List.append_assoc]
      exact concat2_eq (by decide) _
    · rw [hasPair_append]
      have hJ : hasPair 'I' 'M'
          (joinWith (str " AND ") (_build_conditions_from_question question)) =
            false := by
        apply hasPair_joinWith 'I' 'M' ' ' (str "AND ")
        · decide
        · decide
        · decide
        · exact conds_no_IM question
      have e1 : hasPair 'I' 'M' (str " WHERE ") = false := by decide
      have e2 : lastIs 'I' (str " WHERE ") = false := by decide
      rw [hJ, e1, e2, Bool.false_and]
      rfl

/-- C3: for every question whose lower-cased text contains "how many" (and
any suggester output), the assembled SQL contains "COUNT(*) AS count" and
contains no "LIMIT" substring. -/
theorem count_question_sql (question suggester_output : Str)
    (h : inStr (str "how many") (lowerL question) = true) :
    inStr (str "COUNT(*) AS count")
        (generate_sql_from_question question suggester_output) = true ∧
    inStr (str "LIMIT")
        (generate_sql_from_question question suggester_output) = false := by
  obtain ⟨W, hsql, hW⟩ := count_sql_shape question suggester_output h
  rw [hsql]
  constructor
  · apply inStr_append_left
    apply inStr_append_left
    decide
  · have hpair : hasPair 'I' 'M'
        ((str "SELECT COUNT(*) AS count FROM tickets" ++ W) ++ str ";") = false := by
      rw [hasPair_append, hasPair_append, hW]
      have e1 : hasPair 'I' 'M' (str "SELECT COUNT(*) AS count FROM tickets") =
          false := by decide
      have e2 : lastIs 'I' (str "SELECT COUNT(*) AS count FROM tickets") =
          false := by decide
      have e3 : hasPair 'I' 'M' (str ";") = false := rfl
      have e4 : headIs 'M' (str ";") = false := by decide
      rw [e1, e2, e3, e4, Bool.and_false, Bool.false_and]
      rfl
    rw [inStr_false_iff]
    exact not_infix_of_pair (by decide) hpair

/-- Witness for `count_question_sql` at a concrete input. -/
theorem count_question_sql_witness :
    inStr (str "COUNT(*) AS count")
        (generate_sql_from_question (str "how many tickets") (str "id")) = true ∧
    inStr (str "LIMIT")
        (generate_sql_from_question (str "how many tickets") (str "id")) = false :=
  count_question_sql _ _ (by decide)

/-! ## C7: monotonicity of the condition builder under appended keywords -/

/-- C7 counterexample: appending the recognized keyword `" payment"` to the
question `"xyz"` removes the free-text condition that the unrelated keyword
`"xyz"` had produced (the LIKE group is rebuilt with both keywords). -/
theorem condition_builder_monotonic_counterexample :
    str "(LOWER(text) LIKE '%xyz%')" ∈
      _build_conditions_from_question (str "xyz") ∧
    str "(LOWER(text) LIKE '%xyz%')" ∉
      _build_conditions_from_question (str "xyz" ++ str " payment") := by decide

theorem letterRunsAux_append_sep {sep : Char} (hsep : isAsciiLetter sep = false)
    (r : Str) :
    ∀ (l cur : Str),
      letterRunsAux cur (l ++ sep :: r) =
        letterRunsAux cur l ++ letterRunsAux [] r := by
  intro l
  induction l with
  | nil =>
    intro cur
    have lhs : letterRunsAux cur ([] ++ sep :: r) =
        if cur.isEmpty then letterRunsAux [] r
        else cur.reverse :: letterRunsAux [] r := by
      simp [letterRunsAux, hsep]
    have rhs : letterRunsAux cur ([] : Str) =
        if cur.isEmpty then [] else [cur.reverse] := by
      simp [letterRunsAux]
    rw [lhs, rhs]
    cases cur.isEmpty <;> simp
  | cons c₀ l ih =>
    intro cur
    by_cases hc₀ : isAsciiLetter c₀ = true
    · show letterRunsAux cur (c₀ :: (l ++ sep :: r)) = _
      rw [show letterRunsAux cur (c₀ :: (l ++ sep :: r)) =
          letterRunsAux (c₀ :: cur) (l ++ sep :: r) from by
        simp [letterRunsAux, hc₀]]
      rw [show letterRunsAux cur (c₀ :: l) =
          letterRunsAux (c₀ :: cur) l from by
        simp [letterRunsAux, hc₀]]
      exact ih (c₀ :: cur)
    · have hc₀' : isAsciiLetter c₀ = false := by
        cases h : isAsciiLetter c₀
        · rfl
        · exact absurd h hc₀
      cases hcur : cur.isEmpty with
      | true =>
        show letterRunsAux cur (c₀ :: (l ++ sep :: r)) = _
        rw [show letterRunsAux cur (c₀ :: (l ++ sep :: r)) =
            letterRunsAux [] (l ++ sep :: r) from by
          simp [letterRunsAux, hc₀', hcur]]
        rw [show letterRunsAux cur (c₀ :: l) = letterRunsAux [] l from by
          simp [letterRunsAux, hc₀', hcur]]
        exact ih []
      | false =>
        show letterRunsAux cur (c₀ :: (l ++ sep :: r)) = _
        rw [show letterRunsAux cur (c₀ :: (l ++ sep :: r)) =
            cur.reverse :: letterRunsAux [] (l ++ sep :: r) from by
          simp [letterRunsAux, hc₀', hcur]]
        rw [show letterRunsAux cur (c₀ :: l) =
            cur.reverse :: letterRunsAux [] l from by
          simp [letterRunsAux, hc₀', hcur]]
        rw [ih []]
        rfl

theorem keywords_append_open (q : Str) :
    _extract_text_keywords (q ++ str " open") = _extract_text_keywords q := by
  simp only [_extract_text_keywords]
  have h1 : letterRuns (q ++ str " open") = letterRuns q ++ [str "open"] := by
    unfold letterRuns
    have e : q ++ str " open" = q ++ (' ' :: str "open") := rfl
    rw [e, letterRunsAux_append_sep (by decide) (str "open") q []]
    have e2 : letterRunsAux [] (str "open") = [str "open"] := by decide
    rw [e2]
  rw [h1, List.filter_append, List.map_append, List.filter_append]
  have h2 : ((((([str "open"] : List Str)).filter
        (fun w => decide (3 ≤ w.length))).map
          (fun w => w.map pyLowerChar)).filter
        (fun w => !(stop_words.contains w))) = [] := by decide
  rw [h2, List.append_nil]

theorem inStr_append_eq (pat l r : Str)
    (hno : inStr pat r = false)
    (hspan : ∀ t ∈ pat.tails, t ∈ r.inits → t = []) :
    inStr pat (l ++ r) = inStr pat l := by
  cases hl : inStr pat l with
  | false =>
    rw [inStr_false_iff] at hl ⊢
    intro hcon
    exact hl (infix_append_elim hcon hno hspan)
  | true => exact inStr_append_left r hl

theorem lowerL_append_open (q : Str) :
    lowerL (q ++ str " open") = lowerL q ++ str " open" := by
  rw [lowerL_append]
  have : lowerL (str " open") = str " open" := by decide
  rw [this]

theorem priority_conditions_append_open (lq : Str) :
    priority_conditions (lq ++ str " open") = priority_conditions lq := by
  unfold priority_conditions
  rw [inStr_append_eq (str "high") lq (str " open") (by decide) (by decide),
    inStr_append_eq (str "medium") lq (str " open") (by decide) (by decide),
    inStr_append_eq (str "low") lq (str " open") (by decide) (by decide)]

theorem date_conditions_append_open (lq : Str) :
    date_conditions (lq ++ str " open") = date_conditions lq := by
  unfold date_conditions
  rw [inStr_append_eq (str "today") lq (str " open") (by decide) (by decide),
    inStr_append_eq (str "yesterday") lq (str " open") (by decide) (by decide),
    inStr_append_eq (str "this week") lq (str " open") (by decide) (by decide),
    inStr_append_eq (str "last 7 days") lq (str " open") (by decide) (by decide),
    inStr_append_eq (str "this month") lq (str " open") (by decide) (by decide)]

theorem mem_if_singleton {P : Prop} [Decidable P] {x c : Str}
    (h : c ∈ (if P then [x] else [])) : P ∧ c = x := by
  split at h
  · rename_i hP
    exact ⟨hP, List.mem_singleton.1 h⟩
  · simp at h

theorem mem_if_singleton_intro {P : Prop} [Decidable P] {x : Str} (hP : P) :
    x ∈ (if P then [x] else []) := by
  rw [if_pos hP]
  exact List.mem_singleton_self x

theorem or2_persist {p₁ p₂ l : Str} (r : Str)
    (h : (inStr p₁ l || inStr p₂ l) = true) :
    (inStr p₁ (l ++ r) || inStr p₂ (l ++ r)) = true := by
  rw [Bool.or_eq_true] at h
  rcases h with h | h
  · rw [inStr_append_left r h, Bool.true_or]
  · rw [inStr_append_left r h, Bool.or_true]

theorem or3_persist {p₁ p₂ p₃ l : Str} (r : Str)
    (h : (inStr p₁ l || inStr p₂ l || inStr p₃ l) = true) :
    (inStr p₁ (l ++ r) || inStr p₂ (l ++ r) || inStr p₃ (l ++ r)) = true := by
  rw [Bool.or_eq_true] at h
  rcases h with h | h
  · rw [or2_persist r h, Bool.true_or]
  · rw [inStr_append_left r h, Bool.or_true]

theorem category_conditions_mono {l : Str} (r : Str) {c : Str}
    (hc : c ∈ category_conditions l) : c ∈ category_conditions (l ++ r) := by
  unfold category_conditions at hc ⊢
  rw [List.mem_append, List.mem_append] at hc ⊢
  rcases hc with (hc | hc) | hc
  · obtain ⟨hP, rfl⟩ := mem_if_singleton hc
    exact Or.inl (Or.inl (mem_if_singleton_intro (or2_persist r hP)))
  · obtain ⟨hP, rfl⟩ := mem_if_singleton hc
    exact Or.inl (Or.inr (mem_if_singleton_intro (or3_persist r hP)))
  · obtain ⟨hP, rfl⟩ := mem_if_singleton hc
    exact Or.inr (mem_if_singleton_intro (or3_persist r hP))

theorem status_conditions_mono {l : Str} (r : Str) {c : Str}
    (hc : c ∈ status_conditions l) : c ∈ status_conditions (l ++ r) := by
  unfold status_conditions at hc ⊢
  rw [List.mem_append] at hc ⊢
  rcases hc with hc | hc
  · obtain ⟨hP, rfl⟩ := mem_if_singleton hc
    exact Or.inl (mem_if_singleton_intro (inStr_append_left r hP))
  · obtain ⟨hP, rfl⟩ := mem_if_singleton hc
    exact Or.inr (mem_if_singleton_intro (or2_persist r hP))

/-- C7 (amended): appending the spec's example keyword `" open"` to any
question never removes any condition from the Condition Builder's output.
(The unrestricted claim fails because recognized keywords that are not stop
words, such as "payment", rebuild the free-text LIKE group — see the
counterexample.) -/
theorem condition_builder_append_open_monotonic (question c : Str)
    (hc : c ∈ _build_conditions_from_question question) :
    c ∈ _build_conditions_from_question (question ++ str " open") := by
  simp only [_build_conditions_from_question, List.mem_append] at hc ⊢
  rw [lowerL_append_open, priority_conditions_append_open,
    date_conditions_append_open]
  have htext : text_conditions (question ++ str " open") =
      text_conditions question := by
    simp only [text_conditions]
    rw [keywords_append_open]
  rw [htext]
  rcases hc with ((((hc | hc) | hc) | hc) | hc)
  · exact Or.inl (Or.inl (Or.inl (Or.inl hc)))
  · exact Or.inl (Or.inl (Or.inl (Or.inr (category_conditions_mono _ hc))))
  · exact Or.inl (Or.inl (Or.inr (status_conditions_mono _ hc)))
  · exact Or.inl (Or.inr hc)
  · exact Or.inr hc

/-- Witness for `condition_builder_append_open_monotonic` at a concrete input. -/
theorem condition_builder_append_open_monotonic_witness :
    str "priority = 'High'" ∈
      _build_conditions_from_question (str "high tickets" ++ str " open") :=
  condition_builder_append_open_monotonic _ _ (by decide)

/-! ## C8: single-category SQL explains to exactly the matching phrase -/

theorem concat3_eq' {a b c d : Str} (h : a ++ (b ++ c) = d) (Z : Str) :
    a ++ (b ++ (c ++ Z)) = d ++ Z := by
  rw [← h]
  simp [List.append_assoc]

theorem mem_joinWith {c : Char} {sep : Str} :
    ∀ {ls : List Str}, c ∈ joinWith sep ls → c ∈ sep ∨ ∃ l ∈ ls, c ∈ l := by
  intro ls
  induction ls with
  | nil =>
    intro h
    simp [joinWith] at h
  | cons a ls ih =>
    cases ls with
    | nil =>
      intro h
      exact Or.inr ⟨a, List.mem_cons_self _ _, h⟩
    | cons b ls' =>
      intro h
      rw [show joinWith sep (a :: b :: ls') = (a ++ sep) ++ joinWith sep (b :: ls')
        from rfl] at h
      rw [List.mem_append, List.mem_append] at h
      rcases h with (h | h) | h
      · exact Or.inr ⟨a, List.mem_cons_self _ _, h⟩
      · exact Or.inl h
      · rcases ih h with h' | ⟨l, hl, hcl⟩
        · exact Or.inl h'
        · exact Or.inr ⟨l, List.mem_cons_of_mem _ hl, hcl⟩

theorem clean_chars (e : Str) :
    _clean_columns_expression e = str "COUNT(*)" ∨
      ∀ c ∈ _clean_columns_expression e, (isAllowedChar c || (c == ',')) = true := by
  simp only [_clean_columns_expression]
  split
  · exact Or.inl rfl
  · split
    · rename_i hcond
      rw [Bool.and_eq_true] at hcond
      have hall := hcond.1
      rw [List.all_eq_true] at hall
      right
      intro c hc
      rcases mem_joinWith hc with hsep | ⟨p, hp, hcp⟩
      · have hsep' : c = ',' ∨ c = ' ' := by
          have h2 : c ∈ [',', ' '] := hsep
          simpa using h2
        rcases hsep' with rfl | rfl <;> decide
      · have := hall p hp
        rw [Bool.and_eq_true, List.all_eq_true] at this
        have hc' := this.2 c hcp
        rw [hc']
        rfl
    · right
      decide

theorem pyLowerChar_eq_self_of_not_upper {c : Char}
    (h : ¬ (65 ≤ c.toNat ∧ c.toNat ≤ 90)) : pyLowerChar c = c := by
  unfold pyLowerChar
  rw [dif_neg h]

theorem allowed_pyLowerChar {c : Char}
    (h : (isAllowedChar c || (c == ',')) = true) :
    (isAllowedChar (pyLowerChar c) || (pyLowerChar c == ',')) = true := by
  by_cases hup : 65 ≤ c.toNat ∧ c.toNat ≤ 90
  · have ht : (pyLowerChar c).toNat = c.toNat + 32 := by
      rw [toNat_pyLowerChar, if_pos hup]
    have hletter : isAsciiLetter (pyLowerChar c) = true := by
      unfold isAsciiLetter
      rw [ht]
      simp only [Bool.or_eq_true, Bool.and_eq_true, decide_eq_true_eq]
      omega
    simp [isAllowedChar, hletter]
  · rw [pyLowerChar_eq_self_of_not_upper hup]
    exact h

theorem lastIs_false_of_not_mem {a : Char} {l : Str} (h : a ∉ l) :
    lastIs a l = false := by
  induction l with
  | nil => rfl
  | cons x t ih =>
    cases t with
    | nil =>
      show (x == a) = false
      rw [beq_eq_false_iff_ne]
      intro e
      exact h (e ▸ List.mem_cons_self _ _)
    | cons y t' =>
      show lastIs a (y :: t') = false
      exact ih (fun hm => h (List.mem_cons_of_mem _ hm))

theorem hasPair_quote_sql {x : Char} {lex rest : Str}
    (hq : '\'' ∉ lex)
    (hrest : hasPair '\'' x rest = false) :
    hasPair '\'' x (str "select " ++ (lex ++ rest)) = false := by
  rw [hasPair_append, hasPair_append, hasPair_not_mem_left hq, hrest,
    lastIs_false_of_not_mem hq, Bool.false_and]
  have e1 : hasPair '\'' x (str "select ") = false :=
    hasPair_not_mem_left (by decide)
  have e2 : lastIs '\'' (str "select ") = false := by decide
  rw [e1, e2, Bool.false_and]
  rfl

theorem not_infix_of_not_mem {p l : Str} {d : Char} (hd : d ∈ p) (hl : d ∉ l) :
    ¬ p <:+: l := fun h => hl (h.subset hd)

theorem count_guard_false {lowex lowR : Str} (hstar : '*' ∉ lowex)
    (hstarR : '*' ∉ lowR) :
    inStr (str "count(*)") (str "select " ++ (lowex ++ lowR)) = false := by
  rw [inStr_false_iff]
  apply not_infix_of_not_mem (show '*' ∈ str "count(*)" by decide)
  intro hm
  rw [List.mem_append, List.mem_append] at hm
  rcases hm with hm | hm | hm
  · revert hm
    decide
  · exact hstar hm
  · exact hstarR hm

theorem guard_false_of_pair (pat : Str) (x : Char) {lowex lowR : Str}
    (hq : '\'' ∉ lowex)
    (hpat : hasPair '\'' x pat = true)
    (hlowR : hasPair '\'' x lowR = false) :
    inStr pat (str "select " ++ (lowex ++ lowR)) = false := by
  rw [inStr_false_iff]
  exact not_infix_of_pair hpat (hasPair_quote_sql hq hlowR)

theorem guard_true_of_rest (pat : Str) {lowex lowR : Str}
    (h : inStr pat lowR = true) :
    inStr pat (str "select " ++ (lowex ++ lowR)) = true :=
  inStr_append_right _ (inStr_append_right _ h)

theorem explain_noncount_technical (ex lowex : Str)
    (hlowex : lowerL ex = lowex) (hq : '\'' ∉ lowex) (hstar : '*' ∉ lowex) :
    explain_sql (str "SELECT " ++
        (ex ++ str " FROM tickets WHERE category = 'Technical' LIMIT 50;")) =
      str "This query retrieves ticket details related to technical issues and limits the results to 50 records." := by
  simp only [explain_sql]
  have hlow : lowerL (str "SELECT " ++
      (ex ++ str " FROM tickets WHERE category = 'Technical' LIMIT 50;")) =
      str "select " ++
        (lowex ++ str " from tickets where category = 'technical' limit 50;") := by
    rw [lowerL_append, lowerL_append, hlowex]
    have e1 : lowerL (str "SELECT ") = str "select " := by decide
    have e2 : lowerL (str " FROM tickets WHERE category = 'Technical' LIMIT 50;") =
        str " from tickets where category = 'technical' limit 50;" := by decide
    rw [e1, e2]
  rw [hlow]
  rw [count_guard_false hstar (by decide),
    guard_false_of_pair (str "priority = 'high'") 'h' hq (by decide) (by decide),
    guard_false_of_pair (str "priority = 'medium'") 'm' hq (by decide) (by decide),
    guard_false_of_pair (str "priority = 'low'") 'l' hq (by decide) (by decide),
    guard_true_of_rest (str "category = 'technical'") (by decide),
    guard_false_of_pair (str "category = 'billing'") 'b' hq (by decide) (by decide),
    guard_false_of_pair (str "category = 'general'") 'g' hq (by decide) (by decide),
    guard_false_of_pair (str "status = 'open'") 'o' hq (by decide) (by decide),
    guard_false_of_pair (str "status = 'closed'") 'c' hq (by decide) (by decide),
    guard_true_of_rest (str "limit") (by decide)]
  decide

theorem explain_noncount_billing (ex lowex : Str)
    (hlowex : lowerL ex = lowex) (hq : '\'' ∉ lowex) (hstar : '*' ∉ lowex) :
    explain_sql (str "SELECT " ++
        (ex ++ str " FROM tickets WHERE category = 'Billing' LIMIT 50;")) =
      str "This query retrieves ticket details related to billing issues and limits the results to 50 records." := by
  simp only [explain_sql]
  have hlow : lowerL (str "SELECT " ++
      (ex ++ str " FROM tickets WHERE category = 'Billing' LIMIT 50;")) =
      str "select " ++
        (lowex ++ str " from tickets where category = 'billing' limit 50;") := by
    rw [lowerL_append, lowerL_append, hlowex]
    have e1 : lowerL (str "SELECT ") = str "select " := by decide
    have e2 : lowerL (str " FROM tickets WHERE category = 'Billing' LIMIT 50;") =
        str " from tickets where category = 'billing' limit 50;" := by decide
    rw [e1, e2]
  rw [hlow]
  rw [count_guard_false hstar (by decide),
    guard_false_of_pair (str "priority = 'high'") 'h' hq (by decide) (by decide),
    guard_false_of_pair (str "priority = 'medium'") 'm' hq (by decide) (by decide),
    guard_false_of_pair (str "priority = 'low'") 'l' hq (by decide) (by decide),
    guard_false_of_pair (str "category = 'technical'") 't' hq (by decide) (by decide),
    guard_true_of_rest (str "category = 'billing'") (by decide),
    guard_false_of_pair (str "category = 'general'") 'g' hq (by decide) (by decide),
    guard_false_of_pair (str "status = 'open'") 'o' hq (by decide) (by decide),
    guard_false_of_pair (str "status = 'closed'") 'c' hq (by decide) (by decide),
    guard_true_of_rest (str "limit") (by decide)]
  decide

theorem explain_noncount_general (ex lowex : Str)
    (hlowex : lowerL ex = lowex) (hq : '\'' ∉ lowex) (hstar : '*' ∉ lowex) :
    explain_sql (str "SELECT " ++
        (ex ++ str " FROM tickets WHERE category = 'General' LIMIT 50;")) =
      str "This query retrieves ticket details related to general issues and limits the results to 50 records." := by
  simp only [explain_sql]
  have hlow : lowerL (str "SELECT " ++
      (ex ++ str " FROM tickets WHERE category = 'General' LIMIT 50;")) =
      str "select " ++
        (lowex ++ str " from tickets where category = 'general' limit 50;") := by
    rw [lowerL_append, lowerL_append, hlowex]
    have e1 : lowerL (str "SELECT ") = str "select " := by decide
    have e2 : lowerL (str " FROM tickets WHERE category = 'General' LIMIT 50;") =
        str " from tickets where category = 'general' limit 50;" := by decide
    rw [e1, e2]
  rw [hlow]
  rw [count_guard_false hstar (by decide),
    guard_false_of_pair (str "priority = 'high'") 'h' hq (by decide) (by decide),
    guard_false_of_pair (str "priority = 'medium'") 'm' hq (by decide) (by decide),
    guard_false_of_pair (str "priority = 'low'") 'l' hq (by decide) (by decide),
    guard_false_of_pair (str "category = 'technical'") 't' hq (by decide) (by decide),
    guard_false_of_pair (str "category = 'billing'") 'b' hq (by decide) (by decide),
    guard_true_of_rest (str "category = 'general'") (by decide),
    guard_false_of_pair (str "status = 'open'") 'o' hq (by decide) (by decide),
    guard_false_of_pair (str "status = 'closed'") 'c' hq (by decide) (by decide),
    guard_true_of_rest (str "limit") (by decide)]
  decide

/-- C8: when the condition builder yields exactly one category condition
and nothing else, the explanation of the generated SQL contains exactly one
of the three category phrases, namely the one matching that condition. -/
theorem single_category_explanation_matches (question suggester_output cond phrase : Str)
    (hci : (cond = str "category = 'Technical'" ∧
              phrase = str "related to technical issues") ∨
           (cond = str "category = 'Billing'" ∧
              phrase = str "related to billing issues") ∨
           (cond = str "category = 'General'" ∧
              phrase = str "related to general issues"))
    (h : _build_conditions_from_question question = [cond]) :
    category_phrases.filter (fun p =>
      inStr p (explain_sql
        (generate_sql_from_question question suggester_output))) = [phrase] := by
  cases hB : (inStr (str "how many") (lowerL question) ||
      inStr (str "count") (lowerL question) ||
      inStr (str "count(")
        (lowerL (_clean_columns_expression suggester_output))) with
  | true =>
    have hsql : generate_sql_from_question question suggester_output =
        str "SELECT COUNT(*) AS count FROM tickets WHERE " ++
          (cond ++ str ";") := by
      simp only [generate_sql_from_question, hB, if_true, h, List.isEmpty_cons,
        Bool.false_eq_true, if_false, joinWith]
      simp only [List.append_assoc]
      exact concat3_eq' (by decide) _
    rw [hsql]
    rcases hci with ⟨rfl, rfl⟩ | ⟨rfl, rfl⟩ | ⟨rfl, rfl⟩ <;> decide
  | false =>
    have hcount : inStr (str "count(")
        (lowerL (_clean_columns_expression suggester_output)) = false := by
      rw [Bool.or_eq_false_iff] at hB
      exact hB.2
    have hchars : ∀ c ∈ _clean_columns_expression suggester_output,
        (isAllowedChar c || (c == ',')) = true := by
      rcases clean_chars suggester_output with hC | hO
      · exfalso
        rw [hC] at hcount
        have hT : inStr (str "count(") (lowerL (str "COUNT(*)")) = true := by decide
        rw [hT] at hcount
        cases hcount
      · exact hO
    have hlexchars : ∀ c ∈ lowerL (_clean_columns_expression suggester_output),
        (isAllowedChar c || (c == ',')) = true := by
      intro c hc
      rw [lowerL, List.mem_map] at hc
      obtain ⟨c₀, hc₀, rfl⟩ := hc
      exact allowed_pyLowerChar (hchars c₀ hc₀)
    have hq : '\'' ∉ lowerL (_clean_columns_expression suggester_output) := by
      intro hm
      have hcm := hlexchars _ hm
      revert hcm
      decide
    have hstar : '*' ∉ lowerL (_clean_columns_expression suggester_output) := by
      intro hm
      have hcm := hlexchars _ hm
      revert hcm
      decide
    have hsql : generate_sql_from_question question suggester_output =
        str "SELECT " ++ (_clean_columns_expression suggester_output ++
          (str " FROM tickets WHERE " ++ (cond ++ str " LIMIT 50;"))) := by
      simp only [generate_sql_from_question, hB, Bool.false_eq_true, if_false, h,
        List.isEmpty_cons, joinWith]
      simp only [List.append_assoc]
      refine congrArg (fun z => str "SELECT " ++
        (_clean_columns_expression suggester_output ++ z)) ?_
      rw [show str " LIMIT 50" ++ str ";" = str " LIMIT 50;" from by decide]
      exact concat2_eq (by decide) _
    rw [hsql]
    rcases hci with ⟨rfl, rfl⟩ | ⟨rfl, rfl⟩ | ⟨rfl, rfl⟩
    · rw [show str " FROM tickets WHERE " ++
          (str "category = 'Technical'" ++ str " LIMIT 50;") =
          str " FROM tickets WHERE category = 'Technical' LIMIT 50;" from by decide]
      rw [explain_noncount_technical _ _ rfl hq hstar]
      decide
    · rw [show str " FROM tickets WHERE " ++
          (str "category = 'Billing'" ++ str " LIMIT 50;") =
          str " FROM tickets WHERE category = 'Billing' LIMIT 50;" from by decide]
      rw [explain_noncount_billing _ _ rfl hq hstar]
      decide
    · rw [show str " FROM tickets WHERE " ++
          (str "category = 'General'" ++ str " LIMIT 50;") =
          str " FROM tickets WHERE category = 'General' LIMIT 50;" from by decide]
      rw [explain_noncount_general _ _ rfl hq hstar]
      decide

/-- Witness for `single_category_explanation_matches` at a concrete input. -/
theorem single_category_explanation_matches_witness :
    category_phrases.filter (fun p =>
      inStr p (explain_sql
        (generate_sql_from_question (str "billing") (str "id")))) =
      [str "related to billing issues"] :=
  single_category_explanation_matches _ _ _ _
    (Or.inr (Or.inl ⟨rfl, rfl⟩)) (by decide)
